import Mathlib

/-!
# indicator-sound: `src/common-defs.h`

The header is a flat list of object-like preprocessor definitions, each binding
a symbolic name to a C string literal.  Every definition is embedded as a Lean
`String` constant carrying the source's name and literal, and the header as a
whole as the list of its definitions (name, replacement text) in source order.
-/

namespace CommonDefs

/-! ## The definitions of the header, in source order -/

/-- Line 22: `#define SIGNAL_SINK_INPUT_WHILE_MUTED "SinkInputWhileMuted"`. -/
def SIGNAL_SINK_INPUT_WHILE_MUTED : String := "SinkInputWhileMuted"

/-- Line 23: `#define SIGNAL_SINK_VOLUME_UPDATE "SinkVolumeUpdate"`. -/
def SIGNAL_SINK_VOLUME_UPDATE : String := "SinkVolumeUpdate"

/-- Line 24: `#define SIGNAL_SINK_MUTE_UPDATE "SinkMuteUpdate"`. -/
def SIGNAL_SINK_MUTE_UPDATE : String := "SinkMuteUpdate"

/-- Line 25: `#define SIGNAL_SINK_AVAILABLE_UPDATE "SinkAvailableUpdate"`. -/
def SIGNAL_SINK_AVAILABLE_UPDATE : String := "SinkAvailableUpdate"

/-- Line 28: `#define DBUSMENU_SLIDER_MENUITEM_TYPE "x-canonical-ido-slider-item"`. -/
def DBUSMENU_SLIDER_MENUITEM_TYPE : String := "x-canonical-ido-slider-item"

/-- Line 29: `#define DBUSMENU_TRANSPORT_MENUITEM_TYPE "x-canonical-transport-bar"`. -/
def DBUSMENU_TRANSPORT_MENUITEM_TYPE : String := "x-canonical-transport-bar"

/-- Line 30: `#define DBUSMENU_TRANSPORT_MENUITEM_STATE "x-canonical-transport-state"`. -/
def DBUSMENU_TRANSPORT_MENUITEM_STATE : String := "x-canonical-transport-state"

/-- Line 32: `#define DBUSMENU_METADATA_MENUITEM_TYPE "x-canonical-metadata-menu-item"`. -/
def DBUSMENU_METADATA_MENUITEM_TYPE : String := "x-canonical-metadata-menu-item"

/-- Line 33: `#define DBUSMENU_METADATA_MENUITEM_TEXT_ARTIST "x-canonical-metadata-text-artist"`. -/
def DBUSMENU_METADATA_MENUITEM_TEXT_ARTIST : String := "x-canonical-metadata-text-artist"

/-- Line 34: `#define DBUSMENU_METADATA_MENUITEM_TEXT_PIECE "x-canonical-metadata-text-piece"`. -/
def DBUSMENU_METADATA_MENUITEM_TEXT_PIECE : String := "x-canonical-metadata-text-piece"

/-- Line 35: `#define DBUSMENU_METADATA_MENUITEM_TEXT_CONTAINER "x-canonical-metadata-text-container"`. -/
def DBUSMENU_METADATA_MENUITEM_TEXT_CONTAINER : String := "x-canonical-metadata-text-container"

/-- Line 36: `#define DBUSMENU_METADATA_MENUITEM_IMAGE_PATH "x-canonical-metadata-image"`. -/
def DBUSMENU_METADATA_MENUITEM_IMAGE_PATH : String := "x-canonical-metadata-image"

/-- One `#define` of the header: the macro's name and the string it expands to. -/
structure Define where
  name : String
  value : String
deriving DecidableEq

/-- The header `common-defs.h` as the preprocessor sees it: every `#define` of
the file, in the order of the source lines (22-25, 28-30, 32-36). -/
def commonDefs : List Define :=
  [ ⟨"SIGNAL_SINK_INPUT_WHILE_MUTED", SIGNAL_SINK_INPUT_WHILE_MUTED⟩,
    ⟨"SIGNAL_SINK_VOLUME_UPDATE", SIGNAL_SINK_VOLUME_UPDATE⟩,
    ⟨"SIGNAL_SINK_MUTE_UPDATE", SIGNAL_SINK_MUTE_UPDATE⟩,
    ⟨"SIGNAL_SINK_AVAILABLE_UPDATE", SIGNAL_SINK_AVAILABLE_UPDATE⟩,
    ⟨"DBUSMENU_SLIDER_MENUITEM_TYPE", DBUSMENU_SLIDER_MENUITEM_TYPE⟩,
    ⟨"DBUSMENU_TRANSPORT_MENUITEM_TYPE", DBUSMENU_TRANSPORT_MENUITEM_TYPE⟩,
    ⟨"DBUSMENU_TRANSPORT_MENUITEM_STATE", DBUSMENU_TRANSPORT_MENUITEM_STATE⟩,
    ⟨"DBUSMENU_METADATA_MENUITEM_TYPE", DBUSMENU_METADATA_MENUITEM_TYPE⟩,
    ⟨"DBUSMENU_METADATA_MENUITEM_TEXT_ARTIST", DBUSMENU_METADATA_MENUITEM_TEXT_ARTIST⟩,
    ⟨"DBUSMENU_METADATA_MENUITEM_TEXT_PIECE", DBUSMENU_METADATA_MENUITEM_TEXT_PIECE⟩,
    ⟨"DBUSMENU_METADATA_MENUITEM_TEXT_CONTAINER", DBUSMENU_METADATA_MENUITEM_TEXT_CONTAINER⟩,
    ⟨"DBUSMENU_METADATA_MENUITEM_IMAGE_PATH", DBUSMENU_METADATA_MENUITEM_IMAGE_PATH⟩ ]

/-- Expansion of an identifier by the preprocessor after including the header:
the replacement text of the first definition with that name, if there is one. -/
def expand (name : String) : Option String :=
  (commonDefs.find? (fun d => d.name == name)).map Define.value

/-- Whether the characters of `p` open the string `s`. -/
def startsWith (s p : String) : Bool := p.data.isPrefixOf s.data

/-- Whether the characters of `p` close the string `s`. -/
def endsWith (s p : String) : Bool := p.data.isSuffixOf s.data

/-- The DBus signal-name definitions: those whose macro name begins `SIGNAL_`. -/
def signalDefs : List Define := commonDefs.filter (fun d => startsWith d.name "SIGNAL_")

/-- The dbusmenu definitions: those whose macro name begins `DBUSMENU_`. -/
def dbusmenuDefs : List Define := commonDefs.filter (fun d => startsWith d.name "DBUSMENU_")

/-! ## Exact values -/

/-- Claim C1. Each of the twelve symbolic names of `common-defs.h` expands to
exactly the string literal listed for it, character for character: both the
constant itself and the expansion of its name through the header's table. -/
theorem expansion_exact :
    (SIGNAL_SINK_INPUT_WHILE_MUTED = "SinkInputWhileMuted" ∧
     SIGNAL_SINK_VOLUME_UPDATE = "SinkVolumeUpdate" ∧
     SIGNAL_SINK_MUTE_UPDATE = "SinkMuteUpdate" ∧
     SIGNAL_SINK_AVAILABLE_UPDATE = "SinkAvailableUpdate" ∧
     DBUSMENU_SLIDER_MENUITEM_TYPE = "x-canonical-ido-slider-item" ∧
     DBUSMENU_TRANSPORT_MENUITEM_TYPE = "x-canonical-transport-bar" ∧
     DBUSMENU_TRANSPORT_MENUITEM_STATE = "x-canonical-transport-state" ∧
     DBUSMENU_METADATA_MENUITEM_TYPE = "x-canonical-metadata-menu-item" ∧
     DBUSMENU_METADATA_MENUITEM_TEXT_ARTIST = "x-canonical-metadata-text-artist" ∧
     DBUSMENU_METADATA_MENUITEM_TEXT_PIECE = "x-canonical-metadata-text-piece" ∧
     DBUSMENU_METADATA_MENUITEM_TEXT_CONTAINER = "x-canonical-metadata-text-container" ∧
     DBUSMENU_METADATA_MENUITEM_IMAGE_PATH = "x-canonical-metadata-image") ∧
    (expand "SIGNAL_SINK_INPUT_WHILE_MUTED" = some "SinkInputWhileMuted" ∧
     expand "SIGNAL_SINK_VOLUME_UPDATE" = some "SinkVolumeUpdate" ∧
     expand "SIGNAL_SINK_MUTE_UPDATE" = some "SinkMuteUpdate" ∧
     expand "SIGNAL_SINK_AVAILABLE_UPDATE" = some "SinkAvailableUpdate" ∧
     expand "DBUSMENU_SLIDER_MENUITEM_TYPE" = some "x-canonical-ido-slider-item" ∧
     expand "DBUSMENU_TRANSPORT_MENUITEM_TYPE" = some "x-canonical-transport-bar" ∧
     expand "DBUSMENU_TRANSPORT_MENUITEM_STATE" = some "x-canonical-transport-state" ∧
     expand "DBUSMENU_METADATA_MENUITEM_TYPE" = some "x-canonical-metadata-menu-item" ∧
     expand "DBUSMENU_METADATA_MENUITEM_TEXT_ARTIST" = some "x-canonical-metadata-text-artist" ∧
     expand "DBUSMENU_METADATA_MENUITEM_TEXT_PIECE" = some "x-canonical-metadata-text-piece" ∧
     expand "DBUSMENU_METADATA_MENUITEM_TEXT_CONTAINER"
       = some "x-canonical-metadata-text-container" ∧
     expand "DBUSMENU_METADATA_MENUITEM_IMAGE_PATH" = some "x-canonical-metadata-image") := by
  refine ⟨?_, ?_⟩
  · refine ⟨rfl, rfl, rfl, rfl, rfl, rfl, rfl, rfl, rfl, rfl, rfl, rfl⟩
  · decide

/-! ## Uniqueness -/

/-- Claim C2. No two symbolic names of the header map to the same string: any
two definitions of the header with different names have different values. -/
theorem values_unique (a b : Define) (ha : a ∈ commonDefs) (hb : b ∈ commonDefs)
    (hne : a.name ≠ b.name) : a.value ≠ b.value := by
  have hall : ∀ x ∈ commonDefs, ∀ y ∈ commonDefs, x.name ≠ y.name → x.value ≠ y.value := by
    decide
  exact hall a ha b hb hne

/-- Instance of `values_unique` at the volume and mute signal definitions. -/
theorem values_unique_witness :
    ((⟨"SIGNAL_SINK_VOLUME_UPDATE", SIGNAL_SINK_VOLUME_UPDATE⟩ : Define) ∈ commonDefs ∧
     (⟨"SIGNAL_SINK_MUTE_UPDATE", SIGNAL_SINK_MUTE_UPDATE⟩ : Define) ∈ commonDefs ∧
     "SIGNAL_SINK_VOLUME_UPDATE" ≠ "SIGNAL_SINK_MUTE_UPDATE") ∧
    SIGNAL_SINK_VOLUME_UPDATE ≠ SIGNAL_SINK_MUTE_UPDATE :=
  ⟨⟨by decide, by decide, by decide⟩,
   values_unique ⟨"SIGNAL_SINK_VOLUME_UPDATE", SIGNAL_SINK_VOLUME_UPDATE⟩
     ⟨"SIGNAL_SINK_MUTE_UPDATE", SIGNAL_SINK_MUTE_UPDATE⟩
     (by decide) (by decide) (by decide)⟩

/-! ## The set of names -/

/-- Claim C3. The header defines exactly twelve string constants: its names are
the twelve listed ones (in source order, none repeated), a name is defined by
the header exactly when it is one of them, and exactly those names expand. -/
theorem names_exact :
    commonDefs.length = 12 ∧
    (commonDefs.map Define.name).Nodup ∧
    commonDefs.map Define.name =
      [ "SIGNAL_SINK_INPUT_WHILE_MUTED", "SIGNAL_SINK_VOLUME_UPDATE",
        "SIGNAL_SINK_MUTE_UPDATE", "SIGNAL_SINK_AVAILABLE_UPDATE",
        "DBUSMENU_SLIDER_MENUITEM_TYPE", "DBUSMENU_TRANSPORT_MENUITEM_TYPE",
        "DBUSMENU_TRANSPORT_MENUITEM_STATE", "DBUSMENU_METADATA_MENUITEM_TYPE",
        "DBUSMENU_METADATA_MENUITEM_TEXT_ARTIST", "DBUSMENU_METADATA_MENUITEM_TEXT_PIECE",
        "DBUSMENU_METADATA_MENUITEM_TEXT_CONTAINER",
        "DBUSMENU_METADATA_MENUITEM_IMAGE_PATH" ] ∧
    ∀ n : String, (expand n).isSome = true ↔
      n ∈ [ "SIGNAL_SINK_INPUT_WHILE_MUTED", "SIGNAL_SINK_VOLUME_UPDATE",
            "SIGNAL_SINK_MUTE_UPDATE", "SIGNAL_SINK_AVAILABLE_UPDATE",
            "DBUSMENU_SLIDER_MENUITEM_TYPE", "DBUSMENU_TRANSPORT_MENUITEM_TYPE",
            "DBUSMENU_TRANSPORT_MENUITEM_STATE", "DBUSMENU_METADATA_MENUITEM_TYPE",
            "DBUSMENU_METADATA_MENUITEM_TEXT_ARTIST", "DBUSMENU_METADATA_MENUITEM_TEXT_PIECE",
            "DBUSMENU_METADATA_MENUITEM_TEXT_CONTAINER",
            "DBUSMENU_METADATA_MENUITEM_IMAGE_PATH" ] := by
  refine ⟨rfl, by decide, rfl, ?_⟩
  intro n
  have hnames : ∀ m : String, m ∈ commonDefs.map Define.name ↔
      ∃ d ∈ commonDefs, d.name = m := by
    intro m
    simp only [List.mem_map]
  have hsome : (expand n).isSome = true ↔ ∃ d ∈ commonDefs, d.name = n := by
    unfold expand
    have hmap : ∀ o : Option Define, (o.map Define.value).isSome = o.isSome := by
      intro o
      cases o <;> rfl
    rw [hmap, List.find?_isSome]
    simp only [beq_iff_eq]
  rw [hsome, ← hnames]
  exact Iff.of_eq (congrArg (fun l => n ∈ l) rfl)

/-! ## Signal names -/

/-- Claim C4. The header defines exactly four constants whose name begins with
`SIGNAL_`; their values are exactly `SinkInputWhileMuted`, `SinkVolumeUpdate`,
`SinkMuteUpdate` and `SinkAvailableUpdate`; and no `DBUSMENU_` constant has one
of these four values. -/
theorem signal_values_exact :
    signalDefs.length = 4 ∧
    signalDefs.map Define.name =
      [ "SIGNAL_SINK_INPUT_WHILE_MUTED", "SIGNAL_SINK_VOLUME_UPDATE",
        "SIGNAL_SINK_MUTE_UPDATE", "SIGNAL_SINK_AVAILABLE_UPDATE" ] ∧
    (∀ v : String, v ∈ signalDefs.map Define.value ↔
      v ∈ [ "SinkInputWhileMuted", "SinkVolumeUpdate", "SinkMuteUpdate",
            "SinkAvailableUpdate" ]) ∧
    (∀ d ∈ dbusmenuDefs,
      d.value ∉ [ "SinkInputWhileMuted", "SinkVolumeUpdate", "SinkMuteUpdate",
                  "SinkAvailableUpdate" ]) := by
  refine ⟨by decide, by decide, ?_, by decide⟩
  intro v
  exact Iff.of_eq (congrArg (fun l => v ∈ l) (by decide))

/-! ## Property keys -/

/-- Claim C5. The five property-key constants end with `-state`, `-text-artist`,
`-text-piece`, `-text-container` and `-image` respectively, and none of the
three menu-item type constants ends with any of these five suffixes. -/
theorem property_key_suffixes :
    (endsWith DBUSMENU_TRANSPORT_MENUITEM_STATE "-state" = true ∧
     endsWith DBUSMENU_METADATA_MENUITEM_TEXT_ARTIST "-text-artist" = true ∧
     endsWith DBUSMENU_METADATA_MENUITEM_TEXT_PIECE "-text-piece" = true ∧
     endsWith DBUSMENU_METADATA_MENUITEM_TEXT_CONTAINER "-text-container" = true ∧
     endsWith DBUSMENU_METADATA_MENUITEM_IMAGE_PATH "-image" = true) ∧
    (∀ t ∈ [ DBUSMENU_SLIDER_MENUITEM_TYPE, DBUSMENU_TRANSPORT_MENUITEM_TYPE,
             DBUSMENU_METADATA_MENUITEM_TYPE ],
      ∀ sfx ∈ [ "-state", "-text-artist", "-text-piece", "-text-container", "-image" ],
        endsWith t sfx = false) := by
  refine ⟨by decide, by decide⟩

/-! ## Well-formedness of the signal names -/

/-- Claim C6. Every `SIGNAL_` constant value is a well-formed DBus member name:
non-empty, at most 255 characters long, made only of ASCII letters, digits and
underscore, and not beginning with a digit. -/
theorem signal_member_name_wf (d : Define) (hd : d ∈ signalDefs) :
    d.value.length ≠ 0 ∧
    d.value.length ≤ 255 ∧
    (∀ c ∈ d.value.data, c.isAlpha = true ∨ c.isDigit = true ∨ c = '_') ∧
    (∀ c : Char, d.value.data.head? = some c → c.isDigit = false) := by
  have hall : ∀ x ∈ signalDefs,
      x.value.length ≠ 0 ∧ x.value.length ≤ 255 ∧
      (∀ c ∈ x.value.data, c.isAlpha = true ∨ c.isDigit = true ∨ c = '_') ∧
      (∀ c ∈ x.value.data.head?, c.isDigit = false) := by
    decide
  obtain ⟨h1, h2, h3, h4⟩ := hall d hd
  exact ⟨h1, h2, h3, fun c hc => h4 c (by simpa using hc)⟩

/-- Instance of `signal_member_name_wf` at `SIGNAL_SINK_AVAILABLE_UPDATE`. -/
theorem signal_member_name_wf_witness :
    (⟨"SIGNAL_SINK_AVAILABLE_UPDATE", SIGNAL_SINK_AVAILABLE_UPDATE⟩ : Define) ∈ signalDefs ∧
    (SIGNAL_SINK_AVAILABLE_UPDATE.length ≠ 0 ∧
     SIGNAL_SINK_AVAILABLE_UPDATE.length ≤ 255 ∧
     (∀ c ∈ SIGNAL_SINK_AVAILABLE_UPDATE.data,
        c.isAlpha = true ∨ c.isDigit = true ∨ c = '_') ∧
     (∀ c : Char, SIGNAL_SINK_AVAILABLE_UPDATE.data.head? = some c → c.isDigit = false)) :=
  ⟨by decide,
   signal_member_name_wf ⟨"SIGNAL_SINK_AVAILABLE_UPDATE", SIGNAL_SINK_AVAILABLE_UPDATE⟩
     (by decide)⟩

/-! ## The vendor namespace of the menu-item identifiers -/

/-- Claim C7. There are eight `DBUSMENU_` constants; each value begins with
`x-canonical-` and is made only of lowercase ASCII letters and hyphens; the
values of the (two) `DBUSMENU_TRANSPORT_` constants begin with
`x-canonical-transport-` and those of the (five) `DBUSMENU_METADATA_` constants
begin with `x-canonical-metadata-`. -/
theorem dbusmenu_vendor_namespace :
    dbusmenuDefs.length = 8 ∧
    (dbusmenuDefs.filter (fun d => startsWith d.name "DBUSMENU_TRANSPORT_")).length = 2 ∧
    (dbusmenuDefs.filter (fun d => startsWith d.name "DBUSMENU_METADATA_")).length = 5 ∧
    (∀ d ∈ dbusmenuDefs,
      startsWith d.value "x-canonical-" = true ∧
      (∀ c ∈ d.value.data, c.isLower = true ∨ c = '-') ∧
      (startsWith d.name "DBUSMENU_TRANSPORT_" = true →
        startsWith d.value "x-canonical-transport-" = true) ∧
      (startsWith d.name "DBUSMENU_METADATA_" = true →
        startsWith d.value "x-canonical-metadata-" = true)) := by
  refine ⟨by decide, by decide, by decide, by decide⟩

/-! ## Prefix-freeness -/

/-- Claim C8. The constant table is free of prefixes: for any two definitions of
the header with different names, neither value is a prefix of the other. -/
theorem values_prefix_free (a b : Define) (ha : a ∈ commonDefs) (hb : b ∈ commonDefs)
    (hne : a.name ≠ b.name) :
    startsWith a.value b.value = false ∧ startsWith b.value a.value = false := by
  have hall : ∀ x ∈ commonDefs, ∀ y ∈ commonDefs, x.name ≠ y.name →
      startsWith x.value y.value = false ∧ startsWith y.value x.value = false := by
    decide
  exact hall a ha b hb hne

/-- Instance of `values_prefix_free` at the transport type and state definitions,
whose values share the longest common stem `x-canonical-transport-`. -/
theorem values_prefix_free_witness :
    ((⟨"DBUSMENU_TRANSPORT_MENUITEM_TYPE", DBUSMENU_TRANSPORT_MENUITEM_TYPE⟩ : Define)
        ∈ commonDefs ∧
     (⟨"DBUSMENU_TRANSPORT_MENUITEM_STATE", DBUSMENU_TRANSPORT_MENUITEM_STATE⟩ : Define)
        ∈ commonDefs ∧
     "DBUSMENU_TRANSPORT_MENUITEM_TYPE" ≠ "DBUSMENU_TRANSPORT_MENUITEM_STATE") ∧
    (startsWith DBUSMENU_TRANSPORT_MENUITEM_TYPE DBUSMENU_TRANSPORT_MENUITEM_STATE = false ∧
     startsWith DBUSMENU_TRANSPORT_MENUITEM_STATE DBUSMENU_TRANSPORT_MENUITEM_TYPE = false) :=
  ⟨⟨by decide, by decide, by decide⟩,
   values_prefix_free ⟨"DBUSMENU_TRANSPORT_MENUITEM_TYPE", DBUSMENU_TRANSPORT_MENUITEM_TYPE⟩
     ⟨"DBUSMENU_TRANSPORT_MENUITEM_STATE", DBUSMENU_TRANSPORT_MENUITEM_STATE⟩
     (by decide) (by decide) (by decide)⟩

end CommonDefs
